import Mathlib

/-!
Verification of the book-catalog request router (`src/main.go`).

The Go program is a single-file AWS Lambda handler with:
* an ISBN format check via the unanchored regular expression `[0-9]{3}\-[0-9]{10}`
  (`isbnRegexp.MatchString`),
* a `router` dispatching on the HTTP method to `show` (GET) or `create` (POST),
* `clientError` / `serverError` helpers building responses from `http.StatusText`,
* persistence collaborators `getItem` / `putItem` and JSON decoding
  (`json.Unmarshal`), which are external to the file under `src/` and are
  therefore modelled as abstract parameters (an `Env`), while JSON encoding of
  a `book` record (`json.Marshal`) is deterministic and embedded concretely.

Side effects (persistence calls and error-log writes) are made explicit as an
event list in the handler outcome, and the Go `error` return of each handler is
an explicit `Option String` component.
-/

set_option maxHeartbeats 1000000

namespace Books

/-- Go's `[0-9]` character class: ASCII digits (same as `Char.isDigit`). -/
def isGoDigit (c : Char) : Bool :=
  c.isDigit

/-- Does the regular expression `[0-9]{3}\-[0-9]{10}` match at the head of the
character list?  This is a direct transcription of the pattern: three digits, a
literal hyphen, ten digits, anything afterwards. -/
def isbnMatchAt (cs : List Char) : Bool :=
  match cs with
  | a :: b :: c :: h :: rest =>
    isGoDigit a && isGoDigit b && isGoDigit c && (h == '-')
      && decide ((rest.take 10).length = 10) && (rest.take 10).all isGoDigit
  | _ => false

/-- Go's `Regexp.MatchString` is unanchored: the pattern may match at any
position.  We try every suffix. -/
def isbnMatch (cs : List Char) : Bool :=
  match cs with
  | [] => false
  | _ :: rest => isbnMatchAt cs || isbnMatch rest

/-- `isbnRegexp.MatchString s` from `src/main.go` line 15/39/78. -/
def isValidIsbn (s : String) : Bool :=
  isbnMatch s.data

/-- Modelled from the spec: the *anchored* (full-string) reading of the
validator contract — "`s` matches exactly the pattern `\d{3}-\d{10}`", i.e. the
whole string is three digits, a hyphen and ten digits and nothing else.  This
definition follows the spec's words, not the source, and exists to be compared
with `isValidIsbn`. -/
def exactIsbnMatch (s : String) : Bool :=
  isbnMatchAt s.data && decide (s.data.length = 14)

/-- A character list that is exactly one "run" the pattern describes:
three digits, a hyphen, then ten digits. -/
def IsbnRun (run : List Char) : Prop :=
  ∃ d3 d10, run = d3 ++ '-' :: d10 ∧
    d3.length = 3 ∧ d3.all isGoDigit = true ∧
    d10.length = 10 ∧ d10.all isGoDigit = true

/-- The substring-match reading of the spec: `s` contains a contiguous run of
three digits, a hyphen, then ten digits. -/
def ContainsIsbnRun (s : String) : Prop :=
  ∃ pre run post, s.data = pre ++ (run ++ post) ∧ IsbnRun run

/-- The `book` struct of `src/main.go` (JSON field tags `isbn`, `title`,
`author`). -/
structure Book where
  isbn : String
  title : String
  author : String
deriving DecidableEq

/-- Lowercase hexadecimal digit, as used by Go's JSON encoder in
`\u00xx` escapes. -/
def hexDigit (n : Nat) : Char :=
  if n < 10 then Char.ofNat (48 + n) else Char.ofNat (87 + n)

/-- Go `encoding/json` string escaping (with the default HTML escaping that
`json.Marshal` applies): quotes, backslashes, `\n`, `\r`, `\t` get two-character
escapes; other control characters, `<`, `>`, `&`, U+2028 and U+2029 get `\uXXXX`
escapes; everything else is passed through. -/
def escapeJsonChar (c : Char) : List Char :=
  if c = '"' then ['\\', '"']
  else if c = '\\' then ['\\', '\\']
  else if c = '\n' then ['\\', 'n']
  else if c = '\r' then ['\\', 'r']
  else if c = '\t' then ['\\', 't']
  else if c.toNat < 32 ∨ c = '<' ∨ c = '>' ∨ c = '&' ∨ c.toNat = 0x2028 ∨ c.toNat = 0x2029 then
    ['\\', 'u', hexDigit (c.toNat / 4096 % 16), hexDigit (c.toNat / 256 % 16),
      hexDigit (c.toNat / 16 % 16), hexDigit (c.toNat % 16)]
  else [c]

def escapeJsonString (s : String) : String :=
  String.mk (s.data.map escapeJsonChar).flatten

/-- `json.Marshal` on a `book` value: a JSON object with the three fields in
struct order.  For this fixed record shape `json.Marshal` cannot fail, so the
encoder is a total function (the `serverError` branch after `json.Marshal` in
`show` is unreachable). -/
def marshalBook (bk : Book) : String :=
  "\x7b\"isbn\":\"" ++ escapeJsonString bk.isbn ++ "\",\"title\":\""
    ++ escapeJsonString bk.title ++ "\",\"author\":\"" ++ escapeJsonString bk.author ++ "\"\x7d"

/-- The parts of `events.APIGatewayProxyRequest` the program reads. -/
structure Request where
  httpMethod : String
  queryStringParameters : List (String × String)
  headers : List (String × String)
  body : String
deriving DecidableEq

/-- The parts of `events.APIGatewayProxyResponse` the program sets.  Go zero
values: empty header map, empty body. -/
structure Response where
  statusCode : Nat
  headers : List (String × String)
  body : String
deriving DecidableEq

/-- Go map indexing `m[k]` on a `map[string]string`: the zero value `""` when
the key is absent.  Lookup is by exact, case-sensitive string equality. -/
def lookupDefault (m : List (String × String)) (k : String) : String :=
  (m.lookup k).getD ""

/-- `http.StatusText` for the status codes this program uses (Go returns `""`
for codes it does not know). -/
def statusText (code : Nat) : String :=
  if code = 200 then "OK"
  else if code = 400 then "Bad Request"
  else if code = 404 then "Not Found"
  else if code = 405 then "Method Not Allowed"
  else if code = 406 then "Not Acceptable"
  else if code = 422 then "Unprocessable Entity"
  else if code = 500 then "Internal Server Error"
  else ""

/-- Observable side effects of a handler invocation: calls into the persistence
collaborator and writes to the process-wide error log. -/
inductive Eff where
  | fetch (isbn : String)
  | put (bk : Book)
  | logErr (msg : String)
deriving DecidableEq

/-- Result of one handler/router invocation: the response, the Go `error`
component of the return value, and the side effects performed, in order. -/
structure Outcome where
  resp : Response
  err : Option String
  effects : List Eff
deriving DecidableEq

/-- `getItem(isbn)` outcome: backend failure, `nil` record (absent), or a
record. -/
inductive FetchResult where
  | fail (e : String)
  | absent
  | found (bk : Book)

/-- `putItem(bk)` outcome: backend failure or success. -/
inductive PutResult where
  | fail (e : String)
  | ok

/-- The external collaborators of the file under `src/`: the persistence layer
(`getItem` / `putItem`, defined outside `src/main.go`) and JSON decoding
(`json.Unmarshal` into a `book`, modelled as a partial function returning the
decoded record or a failure). -/
structure Env where
  getItem : String → FetchResult
  putItem : Book → PutResult
  parseBody : String → Option Book

def addEff (e : Eff) (o : Outcome) : Outcome :=
  { o with effects := e :: o.effects }

/-- `clientError(status)`: response with the standard reason phrase as body,
`nil` error, no side effects. -/
def clientError (status : Nat) : Outcome :=
  { resp := { statusCode := status, headers := [], body := statusText status }
    err := none
    effects := [] }

/-- `serverError(err)`: logs the cause to the error logger (prefix `"ERROR "`,
from `log.New(os.Stderr, "ERROR ", log.Llongfile)`), then returns a 500
response with the standard reason phrase as body and `nil` error. -/
def serverError (e : String) : Outcome :=
  { resp := { statusCode := 500, headers := [], body := statusText 500 }
    err := none
    effects := [Eff.logErr ("ERROR " ++ e)] }

/-- The GET handler `show` of `src/main.go`. -/
def show' (env : Env) (req : Request) : Outcome :=
  let isbn := lookupDefault req.queryStringParameters "isbn"
  if !(isValidIsbn isbn) then
    clientError 400
  else
    addEff (Eff.fetch isbn)
      (match env.getItem isbn with
       | FetchResult.fail e => serverError e
       | FetchResult.absent => clientError 404
       | FetchResult.found bk =>
         { resp := { statusCode := 200, headers := [], body := marshalBook bk }
           err := none
           effects := [] })

/-- The POST handler `create` of `src/main.go`. -/
def create (env : Env) (req : Request) : Outcome :=
  if lookupDefault req.headers "Content-Type" ≠ "application/json" then
    clientError 406
  else
    match env.parseBody req.body with
    | none => clientError 422
    | some bk =>
      if !(isValidIsbn bk.isbn) then
        clientError 400
      else if bk.title = "" || bk.author = "" then
        clientError 400
      else
        addEff (Eff.put bk)
          (match env.putItem bk with
           | PutResult.fail e => serverError e
           | PutResult.ok =>
             { resp := { statusCode := 201
                         headers := [("Location", "/books?isbn=" ++ bk.isbn)]
                         body := "" }
               err := none
               effects := [] })

/-- The entry point `router` of `src/main.go`: dispatch on the HTTP method. -/
def router (env : Env) (req : Request) : Outcome :=
  if req.httpMethod = "GET" then show' env req
  else if req.httpMethod = "POST" then create env req
  else clientError 405

/-- The error-log records of an outcome, in order. -/
def logsOf (o : Outcome) : List String :=
  o.effects.filterMap fun eff =>
    match eff with
    | Eff.logErr m => some m
    | _ => none

/-- An `Env` whose persistence collaborator is an in-memory key-value store
(association list keyed by ISBN, `put` always succeeds), with decoder `p`. -/
def storeEnv (store : List (String × Book)) (p : String → Option Book) : Env :=
  { getItem := fun isbn =>
      match store.lookup isbn with
      | some bk => FetchResult.found bk
      | none => FetchResult.absent
    putItem := fun _ => PutResult.ok
    parseBody := p }

/-- Sample book record used by concrete witnesses. -/
def bk0 : Book :=
  { isbn := "123-4567890123"
    title := "The Go Programming Language"
    author := "Donovan" }

/-- A POST request with JSON content type and the given body. -/
def postReq (body : String) : Request :=
  { httpMethod := "POST"
    queryStringParameters := []
    headers := [("Content-Type", "application/json")]
    body := body }

/-- A GET request for the given ISBN. -/
def getReq (isbn : String) : Request :=
  { httpMethod := "GET"
    queryStringParameters := [("isbn", isbn)]
    headers := []
    body := "" }

/-- Concrete environment for witnesses: empty store, decoder returning `bk0`
for every body. -/
def envOk : Env :=
  storeEnv [] (fun _ => some bk0)

/-! ## Theorems -/

theorem isbnMatchAt_iff (cs : List Char) :
    isbnMatchAt cs = true ↔ ∃ run post, cs = run ++ post ∧ IsbnRun run := by
  constructor
  · intro h
    match cs with
    | [] => simp [isbnMatchAt] at h
    | [a] => simp [isbnMatchAt] at h
    | [a, b] => simp [isbnMatchAt] at h
    | [a, b, c] => simp [isbnMatchAt] at h
    | a :: b :: c :: hch :: rest =>
      simp only [isbnMatchAt, Bool.and_eq_true, beq_iff_eq, decide_eq_true_eq] at h
      obtain ⟨⟨⟨⟨⟨ha, hb⟩, hc⟩, hh⟩, hlen⟩, hall⟩ := h
      refine ⟨a :: b :: c :: '-' :: rest.take 10, rest.drop 10, ?_, ?_⟩
      · subst hh
        simp [List.take_append_drop]
      · refine ⟨[a, b, c], rest.take 10, rfl, rfl, ?_, hlen, hall⟩
        simp [ha, hb, hc]
  · rintro ⟨run, post, rfl, d3, d10, rfl, h3, hd3, h10, hd10⟩
    obtain ⟨a, b, c, rfl⟩ := List.length_eq_three.mp h3
    simp only [List.all_cons, List.all_nil, Bool.and_eq_true] at hd3
    simp only [List.cons_append, List.nil_append, isbnMatchAt]
    have htake : (d10 ++ post).take 10 = d10 := by
      rw [← h10]
      exact List.take_left d10 post
    simp [hd3.1, hd3.2.1, hd3.2.2.1, htake, h10, hd10]

theorem isbnMatch_iff (cs : List Char) :
    isbnMatch cs = true ↔ ∃ pre rest, cs = pre ++ rest ∧ isbnMatchAt rest = true := by
  induction cs with
  | nil =>
    simp only [isbnMatch, Bool.false_eq_true, false_iff]
    rintro ⟨pre, rest, hEq, hAt⟩
    rcases List.append_eq_nil.mp hEq.symm with ⟨rfl, rfl⟩
    simp [isbnMatchAt] at hAt
  | cons c cs ih =>
    simp only [isbnMatch, Bool.or_eq_true]
    constructor
    · rintro (h | h)
      · exact ⟨[], c :: cs, rfl, h⟩
      · obtain ⟨pre, rest, rfl, hAt⟩ := ih.mp h
        exact ⟨c :: pre, rest, rfl, hAt⟩
    · rintro ⟨pre, rest, hEq, hAt⟩
      match pre, hEq with
      | [], hEq =>
        left
        rw [List.nil_append] at hEq
        rw [hEq]
        exact hAt
      | p :: pre, hEq =>
        right
        refine ih.mpr ⟨pre, rest, ?_, hAt⟩
        simpa using congrArg List.tail hEq

theorem isValidIsbn_iff_containsRun (s : String) :
    isValidIsbn s = true ↔ ContainsIsbnRun s := by
  unfold isValidIsbn ContainsIsbnRun
  rw [isbnMatch_iff]
  constructor
  · rintro ⟨pre, rest, hEq, hAt⟩
    obtain ⟨run, post, rfl, hRun⟩ := (isbnMatchAt_iff rest).mp hAt
    exact ⟨pre, run, post, hEq, hRun⟩
  · rintro ⟨pre, run, post, hEq, hRun⟩
    exact ⟨pre, run ++ post, hEq, (isbnMatchAt_iff _).mpr ⟨run, post, rfl, hRun⟩⟩

theorem show'_err_none (env : Env) (req : Request) :
    (show' env req).err = none := by
  unfold show'
  dsimp only
  split
  · rfl
  · cases env.getItem (lookupDefault req.queryStringParameters "isbn") <;> rfl

theorem create_err_none (env : Env) (req : Request) :
    (create env req).err = none := by
  unfold create
  split
  · rfl
  · cases env.parseBody req.body with
    | none => rfl
    | some bk =>
      dsimp only
      split
      · rfl
      · split
        · rfl
        · cases env.putItem bk <;> rfl

theorem show'_effects_no_put (env : Env) (req : Request) (bk : Book) :
    Eff.put bk ∉ (show' env req).effects := by
  unfold show'
  dsimp only
  split
  · simp [clientError]
  · cases hg : env.getItem (lookupDefault req.queryStringParameters "isbn") <;>
      simp [addEff, clientError, serverError]

theorem put_mem_create (env : Env) (req : Request) (bk : Book)
    (h : Eff.put bk ∈ (create env req).effects) :
    lookupDefault req.headers "Content-Type" = "application/json" ∧
    env.parseBody req.body = some bk ∧
    isValidIsbn bk.isbn = true ∧ bk.title ≠ "" ∧ bk.author ≠ "" := by
  unfold create at h
  split at h
  · simp [clientError] at h
  · rename_i hct
    simp only [ne_eq, not_not] at hct
    split at h
    · simp [clientError] at h
    · rename_i bk' hp
      split at h
      · simp [clientError] at h
      · rename_i hv
        split at h
        · simp [clientError] at h
        · rename_i hta
          have hbk : bk = bk' := by
            rcases hput : env.putItem bk' with e | _ <;>
              rw [hput] at h <;> simpa [addEff, serverError] using h
          subst hbk
          have hv : isValidIsbn bk.isbn = true := by
            simpa using hv
          simp only [Bool.or_eq_true, decide_eq_true_eq, not_or] at hta
          exact ⟨hct, hp, hv, hta.1, hta.2⟩

/-- C1, counterexample: the claim's anchored reading ("`s` matches exactly the
pattern") disagrees with the code at the concrete input
`"xx123-4567890123xx"` — the validator accepts it although the string, taken
as a whole, is not 3 digits, a hyphen and 10 digits. -/
theorem c1_counterexample :
    isValidIsbn "xx123-4567890123xx" = true ∧
    exactIsbnMatch "xx123-4567890123xx" = false := by
  decide

/-- C1 (amended): the ISBN validator returns true iff the string contains a
contiguous run of exactly 3 digits, a hyphen, then 10 digits (substring
semantics, no full-string anchoring); in particular "123-4567890123"
validates, "12-4567890123" does not, and "xx123-4567890123xx" validates. -/
theorem c1_validator_substring_semantics :
    (∀ s : String, isValidIsbn s = true ↔ ContainsIsbnRun s) ∧
    isValidIsbn "123-4567890123" = true ∧
    isValidIsbn "12-4567890123" = false ∧
    isValidIsbn "xx123-4567890123xx" = true :=
  ⟨isValidIsbn_iff_containsRun, by decide, by decide, by decide⟩

/-- C7: the router dispatches solely on the HTTP method — GET goes to the read
handler, POST to the write handler, and any other method yields a 405 response
with the standard reason phrase as body and no persistence call. -/
theorem c7_router_dispatch (env : Env) (req : Request) :
    (req.httpMethod = "GET" → router env req = show' env req) ∧
    (req.httpMethod = "POST" → router env req = create env req) ∧
    (req.httpMethod ≠ "GET" → req.httpMethod ≠ "POST" →
      router env req = clientError 405 ∧
      (router env req).resp.statusCode = 405 ∧
      (router env req).resp.body = "Method Not Allowed" ∧
      (router env req).effects = []) := by
  refine ⟨fun h => ?_, fun h => ?_, fun h1 h2 => ?_⟩
  · simp [router, h]
  · simp [router, h]
  · simp [router, h1, h2, clientError, statusText]

/-- C8: for every request and every behavior of the collaborators, the router
returns a response whose Go error component is nil; no invocation terminates
without producing a response. -/
theorem c8_no_error_escapes (env : Env) (req : Request) :
    (router env req).err = none := by
  unfold router
  split
  · exact show'_err_none env req
  · split
    · exact create_err_none env req
    · rfl

/-- C2: on GET, an absent `isbn` query parameter is read as the empty string;
an invalid (possibly empty) isbn yields the constant 400 outcome with no
persistence call, for every storage behavior; a valid isbn whose fetch reports
the key absent yields 404. -/
theorem c2_get_validation (env : Env) (req : Request) :
    (req.queryStringParameters.lookup "isbn" = none →
      lookupDefault req.queryStringParameters "isbn" = "") ∧
    (isValidIsbn (lookupDefault req.queryStringParameters "isbn") = false →
      show' env req = clientError 400 ∧ (show' env req).effects = []) ∧
    (isValidIsbn (lookupDefault req.queryStringParameters "isbn") = true →
      env.getItem (lookupDefault req.queryStringParameters "isbn") = FetchResult.absent →
      (show' env req).resp.statusCode = 404) := by
  refine ⟨fun h => ?_, fun h => ?_, fun h hg => ?_⟩
  · simp [lookupDefault, h]
  · constructor <;> simp [show', h, clientError]
  · simp [show', h, hg, addEff, clientError, statusText]

/-- C3: on POST the write handler checks, in order: a Content-Type other than
`application/json` yields the constant 406 outcome (the body is never decoded);
then a body that fails to decode yields 422; then an invalid ISBN or an empty
title or author yields 400; the persistence put is reached only with all checks
passed. -/
theorem c3_post_check_order (env : Env) (req : Request) :
    (lookupDefault req.headers "Content-Type" ≠ "application/json" →
      create env req = clientError 406) ∧
    (lookupDefault req.headers "Content-Type" = "application/json" →
      (env.parseBody req.body = none → create env req = clientError 422) ∧
      (∀ bk, env.parseBody req.body = some bk →
        ((isValidIsbn bk.isbn = false ∨ bk.title = "" ∨ bk.author = "") →
          create env req = clientError 400) ∧
        (∀ bk', Eff.put bk' ∈ (create env req).effects →
          isValidIsbn bk.isbn = true ∧ bk.title ≠ "" ∧ bk.author ≠ ""))) := by
  refine ⟨fun h => ?_, fun hct => ⟨fun hp => ?_, fun bk hp => ⟨fun hd => ?_, fun bk' hmem => ?_⟩⟩⟩
  · unfold create
    rw [if_pos h]
  · simp [create, hct, hp]
  · unfold create
    rw [if_neg (not_not_intro hct), hp]
    dsimp only
    rcases hd with hv | ht | ha
    · simp [hv]
    · cases hv2 : isValidIsbn bk.isbn <;> simp [ht]
    · cases hv2 : isValidIsbn bk.isbn <;> simp [ha]
  · obtain ⟨_, hp', hcond⟩ := put_mem_create env req bk' hmem
    rw [hp] at hp'
    obtain rfl := Option.some.inj hp'
    exact hcond

/-- C4: a POST that passes every check and whose put succeeds returns 201 with
a `Location` header of `/books?isbn=` followed by the record's ISBN verbatim,
and an empty body. -/
theorem c4_created_location (env : Env) (req : Request) (bk : Book)
    (hct : lookupDefault req.headers "Content-Type" = "application/json")
    (hp : env.parseBody req.body = some bk)
    (hv : isValidIsbn bk.isbn = true)
    (ht : bk.title ≠ "") (ha : bk.author ≠ "")
    (hput : env.putItem bk = PutResult.ok) :
    (create env req).resp.statusCode = 201 ∧
    (create env req).resp.headers = [("Location", "/books?isbn=" ++ bk.isbn)] ∧
    (create env req).resp.body = "" := by
  simp [create, hct, hp, hv, ht, ha, hput, addEff]

/-- C4, witness: a concrete fully-valid POST. -/
theorem c4_witness :
    (create envOk (postReq "irrelevant")).resp.statusCode = 201 ∧
    (create envOk (postReq "irrelevant")).resp.headers
      = [("Location", "/books?isbn=123-4567890123")] ∧
    (create envOk (postReq "irrelevant")).resp.body = "" := by
  have h := c4_created_location envOk (postReq "irrelevant") bk0 (by decide) rfl
    (by decide) (by decide) (by decide) rfl
  refine ⟨h.1, ?_, h.2.2⟩
  rw [h.2.1]
  decide

/-- C5: when the persistence collaborator fails on the GET fetch or the POST
put, the handler returns 500 with the fixed reason phrase "Internal Server
Error" as body (independent of the cause), and the cause is logged exactly
once, prefixed with the severity marker "ERROR ". -/
theorem c5_storage_failure (env : Env) (req : Request) (e : String) :
    (isValidIsbn (lookupDefault req.queryStringParameters "isbn") = true →
      env.getItem (lookupDefault req.queryStringParameters "isbn") = FetchResult.fail e →
      (show' env req).resp.statusCode = 500 ∧
      (show' env req).resp.body = "Internal Server Error" ∧
      logsOf (show' env req) = ["ERROR " ++ e]) ∧
    (∀ bk, lookupDefault req.headers "Content-Type" = "application/json" →
      env.parseBody req.body = some bk →
      isValidIsbn bk.isbn = true → bk.title ≠ "" → bk.author ≠ "" →
      env.putItem bk = PutResult.fail e →
      (create env req).resp.statusCode = 500 ∧
      (create env req).resp.body = "Internal Server Error" ∧
      logsOf (create env req) = ["ERROR " ++ e]) := by
  constructor
  · intro hv hg
    refine ⟨?_, ?_, ?_⟩ <;>
      simp [show', hv, hg, addEff, serverError, statusText, logsOf]
  · intro bk hct hp hv ht ha hput
    refine ⟨?_, ?_, ?_⟩ <;>
      simp [create, hct, hp, hv, ht, ha, hput, addEff, serverError, statusText, logsOf]

/-- C6: invariant — a record reaches the persistence put operation only if its
ISBN satisfies the validator and its title and author are both non-empty. -/
theorem c6_put_records_validated (env : Env) (req : Request) (bk : Book)
    (h : Eff.put bk ∈ (router env req).effects) :
    isValidIsbn bk.isbn = true ∧ bk.title ≠ "" ∧ bk.author ≠ "" := by
  unfold router at h
  split at h
  · exact absurd h (show'_effects_no_put env req bk)
  · split at h
    · exact (put_mem_create env req bk h).2.2
    · simp [clientError] at h

/-- C6, witness: a concrete POST whose record reaches the put operation. -/
theorem c6_witness :
    Eff.put bk0 ∈ (router envOk (postReq "irrelevant")).effects ∧
    isValidIsbn bk0.isbn = true ∧ bk0.title ≠ "" ∧ bk0.author ≠ "" := by
  have h : Eff.put bk0 ∈ (router envOk (postReq "irrelevant")).effects := by decide
  exact ⟨h, c6_put_records_validated envOk (postReq "irrelevant") bk0 h⟩

/-- C9: with the persistence collaborator modelled as an in-memory key-value
store, a record written by a fully-valid POST and then read back by a GET on
the same ISBN yields a 200 response whose JSON body is the serialization of
exactly the record that was written. -/
theorem c9_roundtrip (store : List (String × Book)) (p : String → Option Book)
    (req : Request) (bk : Book)
    (hct : lookupDefault req.headers "Content-Type" = "application/json")
    (hp : p req.body = some bk)
    (hv : isValidIsbn bk.isbn = true)
    (ht : bk.title ≠ "") (ha : bk.author ≠ "") :
    (create (storeEnv store p) req).resp.statusCode = 201 ∧
    Eff.put bk ∈ (create (storeEnv store p) req).effects ∧
    (router (storeEnv ((bk.isbn, bk) :: store) p) (getReq bk.isbn)).resp.statusCode = 200 ∧
    (router (storeEnv ((bk.isbn, bk) :: store) p) (getReq bk.isbn)).resp.body
      = marshalBook bk := by
  simp only [lookupDefault] at hct
  refine ⟨?_, ?_, ?_, ?_⟩ <;>
    simp [router, create, show', getReq, storeEnv, lookupDefault, hct, hp, hv, ht, ha, addEff]

/-- C9, witness: a concrete write-then-read round trip. -/
theorem c9_witness :
    (create (storeEnv [] (fun _ => some bk0)) (postReq "irrelevant")).resp.statusCode = 201 ∧
    Eff.put bk0 ∈ (create (storeEnv [] (fun _ => some bk0)) (postReq "irrelevant")).effects ∧
    (router (storeEnv [(bk0.isbn, bk0)] (fun _ => some bk0)) (getReq bk0.isbn)).resp.statusCode
      = 200 ∧
    (router (storeEnv [(bk0.isbn, bk0)] (fun _ => some bk0)) (getReq bk0.isbn)).resp.body
      = marshalBook bk0 :=
  c9_roundtrip [] (fun _ => some bk0) (postReq "irrelevant") bk0 (by decide) rfl
    (by decide) (by decide) (by decide)

/-- C10: the Content-Type check is an exact, case-sensitive map lookup of the
key "Content-Type"; a POST whose header map lacks that exact key gets the
constant 406 outcome, whatever decoder is installed (the body is never
decoded). -/
theorem c10_content_type_exact_key (env : Env) (req : Request)
    (hm : req.httpMethod = "POST")
    (hk : req.headers.lookup "Content-Type" = none) :
    router env req = clientError 406 ∧
    (∀ p, router { env with parseBody := p } req = router env req) := by
  have hct : lookupDefault req.headers "Content-Type" = "" := by
    simp [lookupDefault, hk]
  have h406 : ∀ env' : Env, router env' req = clientError 406 := by
    intro env'
    unfold router create
    rw [if_neg (by simp [hm]), if_pos hm, if_pos (by simp [hct])]
  exact ⟨h406 env, fun p => (h406 _).trans (h406 env).symm⟩

/-- C10, witness: a POST carrying `application/json` only under the
differently-cased key "content-type" is rejected with 406. -/
theorem c10_witness :
    router envOk
        { httpMethod := "POST"
          queryStringParameters := []
          headers := [("content-type", "application/json")]
          body := "irrelevant" }
      = clientError 406 :=
  (c10_content_type_exact_key envOk
    { httpMethod := "POST"
      queryStringParameters := []
      headers := [("content-type", "application/json")]
      body := "irrelevant" } rfl (by decide)).1

end Books
